import Mathlib

/-!
Verification development for the StudentHub record-management application.

The server code lives in one Express application file; this development gives
a shallow embedding of the parts the specification talks about:

* the Mongo-backed record store (five submission collections plus the
  academic-record collection), embedded as lists of documents;
* the fetch helpers that compute stream snapshots
  (fetchStudentAcademics, fetchStudentSkills, fetchStudentCurricular,
  fetchPendingDocuments);
* the bearer-token middlewares authenticateStudent / authenticateAdmin;
* the SSE stream handlers, embedded as functions from the sequence of
  per-tick store states to the sequence of events written on the wire;
* the admin review actions POST /api/skills/accept and POST /api/skills/reject;
* the browser-side stream consumers (the skills SSE hook and the admin
  requests page) as state-transition functions.

JavaScript's stable Array.prototype.sort with a numeric comparator is
embedded as List.insertionSort with the corresponding total preorder
(stable sorts for the same preorder agree on every input).  JavaScript
string helpers that the kernel cannot evaluate (first-occurrence replace,
trim, toLowerCase) are re-implemented over character lists with the same
semantics.  The WHATWG URL normalisation inside normalizeDocUrl and the
JWT verifier are host-library collaborators and are passed as parameters.
-/

namespace StudentHub

/-- JavaScript truthiness for an optional string: undefined and the empty
string are falsy, everything else is truthy. -/
def jsTruthy : Option String → Bool
  | none => false
  | some s => s ≠ ""

/-- Whitespace tested by JavaScript's String.prototype.trim (the characters
that occur in this code base). -/
def isSpaceChar (c : Char) : Bool :=
  c == ' ' || c == '\t' || c == '\n' || c == '\r'

/-- Removes leading characters satisfying p. -/
def dropLeading (p : Char → Bool) : List Char → List Char
  | [] => []
  | c :: cs => if p c then dropLeading p cs else c :: cs

/-- Embedding of JavaScript String.prototype.trim. -/
def jsTrim (s : String) : String :=
  ⟨(dropLeading isSpaceChar ((dropLeading isSpaceChar s.data.reverse).reverse))⟩

/-- Lowercases one ASCII character, as JavaScript toLowerCase does on the
ASCII tags this code base uses. -/
def lowerChar (c : Char) : Char :=
  if 65 ≤ c.toNat ∧ c.toNat ≤ 90 then Char.ofNat (c.toNat + 32) else c

/-- Embedding of JavaScript String.prototype.toLowerCase on ASCII data. -/
def jsToLower (s : String) : String := ⟨s.data.map lowerChar⟩

/-- Consumes pat from the front of the second list, when it is a front
segment of it. -/
def dropFront : List Char → List Char → Option (List Char)
  | [], s => some s
  | _ :: _, [] => none
  | p :: ps, c :: cs => if p == c then dropFront ps cs else none

/-- Removes the first occurrence of pat, as JavaScript
String.prototype.replace with a string pattern and empty replacement does. -/
def removeFirstList (pat : List Char) : List Char → List Char
  | [] => []
  | c :: cs =>
    match dropFront pat (c :: cs) with
    | some rest => rest
    | none => c :: removeFirstList pat cs

/-- Embedding of JavaScript s.replace(pat, ''). -/
def jsRemoveFirst (s pat : String) : String := ⟨removeFirstList pat.data s.data⟩

/-- Tests whether the string starts with a slash, as the review handlers'
docurl.startsWith check does. -/
def startsWithSlash (s : String) : Bool :=
  match s.data with
  | [] => false
  | c :: _ => c == '/'

/-- Review status of a submission document. -/
inductive Status where
  | pending
  | accepted
  | rejected
deriving DecidableEq, Repr

/-- One submission document as stored in any of the five achievement
collections (Activities, Extracurriculam, Interned, Company, Skill).  The
variant-specific display fields default to the empty string for the
variants that do not carry them; createdAt is the mongoose timestamp. -/
structure SubDoc where
  sid : String
  url : Option String
  status : Status
  description : Option String
  createdAt : Nat
  activities : String := ""
  skillname : String := ""
  companyname : String := ""
  duration : String := ""
  companytype : String := ""
deriving DecidableEq, Repr

/-- One academic (GPA) record in the GPA collection. -/
structure GPARecord where
  sid : String
  gpa : Nat
  url : Option String
  sem : Nat
  createdAt : Nat
deriving DecidableEq, Repr

/-- A student row, as far as the middlewares consult it (the Mongo _id the
token references, and the public sid). -/
structure Student where
  id : String
  sid : String
deriving DecidableEq, Repr

/-- A faculty/admin row (the Mongo _id the token references). -/
structure Faculty where
  id : String
deriving DecidableEq, Repr

/-- The record store: the collections the embedded endpoints touch. -/
structure Store where
  students : List Student
  faculties : List Faculty
  gpas : List GPARecord
  activities : List SubDoc
  extracurriculam : List SubDoc
  interned : List SubDoc
  company : List SubDoc
  skills : List SubDoc
deriving DecidableEq, Repr

/-- Base URL prepended to stored relative document locations
(http://localhost on the default port 5000). -/
def baseUrl : String := "http://localhost:5000"

/-- Embedding of the url transformation `doc.url ? base + doc.url : null`
(note a stored empty string is falsy in JavaScript and also maps to null). -/
def fullUrl : Option String → Option String
  | none => none
  | some u => if u == "" then none else some (baseUrl ++ u)

/-- Descending-creation-time preorder used by the snapshot sorts on
submission documents. -/
def createdDescSub (a b : SubDoc) : Prop := b.createdAt ≤ a.createdAt

instance : DecidableRel createdDescSub := fun _ _ => Nat.decLe _ _

instance : IsTotal SubDoc createdDescSub := ⟨fun _ _ => Nat.le_total _ _⟩

instance : IsTrans SubDoc createdDescSub := ⟨fun _ _ _ h1 h2 => Nat.le_trans h2 h1⟩

/-- Ascending-semester order used by the academics query sort. -/
def semAsc (a b : GPARecord) : Prop := a.sem ≤ b.sem

instance : DecidableRel semAsc := fun _ _ => Nat.decLe _ _

instance : IsTotal GPARecord semAsc := ⟨fun _ _ => Nat.le_total _ _⟩

instance : IsTrans GPARecord semAsc := ⟨fun _ _ _ h1 h2 => Nat.le_trans h1 h2⟩

/-- Payload of an owner-scoped documents snapshot
({ message, totalCount, documents }). -/
structure DocsPayload where
  message : String
  totalCount : Nat
  documents : List SubDoc
deriving DecidableEq, Repr

/-- Payload of the academics snapshot ({ message, sid, count, records }). -/
structure AcademicsPayload where
  message : String
  sid : String
  count : Nat
  records : List GPARecord
deriving DecidableEq, Repr

/-- Embedding of the helper fetchStudentSkills: all skill documents owned by
sid, urls resolved, newest first. -/
def fetchStudentSkills (sid : String) (s : Store) : DocsPayload :=
  let docs := s.skills.filter (fun d => d.sid == sid)
  let withUrls := docs.map (fun d => { d with url := fullUrl d.url })
  let sorted := List.insertionSort createdDescSub withUrls
  { message := "Skills documents retrieved successfully"
    totalCount := sorted.length
    documents := sorted }

/-- Embedding of the helper fetchStudentCurricular: all curricular documents
owned by sid, urls resolved, newest first. -/
def fetchStudentCurricular (sid : String) (s : Store) : DocsPayload :=
  let docs := s.activities.filter (fun d => d.sid == sid)
  let withUrls := docs.map (fun d => { d with url := fullUrl d.url })
  let sorted := List.insertionSort createdDescSub withUrls
  { message := "Curricular documents retrieved successfully"
    totalCount := sorted.length
    documents := sorted }

/-- Embedding of the helper fetchStudentAcademics: the student's GPA records
sorted by semester ascending (the Mongo query sort), urls resolved. -/
def fetchStudentAcademics (sid : String) (s : Store) : AcademicsPayload :=
  let recs := List.insertionSort semAsc (s.gpas.filter (fun r => r.sid == sid))
  let withUrls := recs.map (fun r => { r with url := fullUrl r.url })
  { message := "Academic records retrieved successfully"
    sid := sid
    count := withUrls.length
    records := withUrls }

/-- One document of the admin pending snapshot, after the per-variant
documentType/title/subtitle display fields are attached. -/
structure OutDoc where
  sid : String
  url : Option String
  status : Status
  description : Option String
  createdAt : Nat
  documentType : String
  title : String
  subtitle : Option String
deriving DecidableEq, Repr

/-- Descending-creation-time preorder on typed pending documents. -/
def createdDescOut (a b : OutDoc) : Prop := b.createdAt ≤ a.createdAt

instance : DecidableRel createdDescOut := fun _ _ => Nat.decLe _ _

instance : IsTotal OutDoc createdDescOut := ⟨fun _ _ => Nat.le_total _ _⟩

instance : IsTrans OutDoc createdDescOut := ⟨fun _ _ _ h1 h2 => Nat.le_trans h2 h1⟩

/-- Per-variant breakdown of the admin pending snapshot.  The source builds
exactly these four counts. -/
structure Breakdown where
  curriculam : Nat
  internships : Nat
  placements : Nat
  skills : Nat
deriving DecidableEq, Repr

/-- Payload of the admin pending snapshot
({ message, totalCount, breakdown, documents }). -/
structure PendingPayload where
  message : String
  totalCount : Nat
  breakdown : Breakdown
  documents : List OutDoc
deriving DecidableEq, Repr

/-- Attaches the documentType/title/subtitle display fields to one stored
document. -/
def withType (ty title : String) (subtitle : Option String) (d : SubDoc) : OutDoc :=
  { sid := d.sid, url := d.url, status := d.status, description := d.description
    createdAt := d.createdAt, documentType := ty, title := title, subtitle := subtitle }

/-- Embedding of the helper fetchPendingDocuments.  It queries the
Activities, Interned, Company and Skill collections for pending documents
(the source does not query the Extracurriculam collection), attaches display
fields, resolves urls, sorts newest first, and counts per variant. -/
def fetchPendingDocuments (s : Store) : PendingPayload :=
  let pa := s.activities.filter (fun d => d.status == Status.pending)
  let pin := s.interned.filter (fun d => d.status == Status.pending)
  let pp := s.company.filter (fun d => d.status == Status.pending)
  let ps := s.skills.filter (fun d => d.status == Status.pending)
  let aT := pa.map (fun d => withType "curriculam" d.activities d.description d)
  let iT := pin.map (fun d => withType "internship" d.companyname
    (some (d.duration ++ " - " ++ d.companytype)) d)
  let pT := pp.map (fun d => withType "placement" d.companyname (some d.companytype) d)
  let sT := ps.map (fun d => withType "skill" d.skillname (some "Skill Certificate") d)
  let allDocs := aT ++ iT ++ pT ++ sT
  let withUrls := allDocs.map (fun d => { d with url := fullUrl d.url })
  let sorted := List.insertionSort createdDescOut withUrls
  { message := "Pending documents retrieved successfully"
    totalCount := sorted.length
    breakdown :=
      { curriculam := aT.length
        internships := iT.length
        placements := pT.length
        skills := sT.length }
    documents := sorted }

/-- Modelled from the spec: the spec's definition of the admin scope — all
Submissions across every variant (curricular, extracurricular, internship,
placement, skill) whose status is pending.  The Extracurriculam model file
is not part of the sources here, but the submit endpoint stores pending
extracurricular submissions and the client types declare their status
field, so the count includes that collection, as the spec's words say. -/
def specPendingCountAllVariants (s : Store) : Nat :=
  (s.activities.filter (fun d => d.status == Status.pending)).length +
  (s.extracurriculam.filter (fun d => d.status == Status.pending)).length +
  (s.interned.filter (fun d => d.status == Status.pending)).length +
  (s.company.filter (fun d => d.status == Status.pending)).length +
  (s.skills.filter (fun d => d.status == Status.pending)).length

/-- An incoming HTTP request, as far as the auth middlewares consult it:
the Authorization header and the token query parameter. -/
structure Request where
  authHeader : Option String
  queryToken : Option String
deriving DecidableEq, Repr

/-- Embedding of the token extraction shared by both middlewares: take the
Authorization header with the Bearer marker removed; when that is falsy,
fall back to the token query parameter; a falsy final value means no token. -/
def tokenOf (req : Request) : Option String :=
  let headerTok : Option String :=
    match req.authHeader with
    | some h => some (jsRemoveFirst h "Bearer ")
    | none => none
  let tok : Option String := if jsTruthy headerTok then headerTok else req.queryToken
  if jsTruthy tok then tok else none

/-- Claims of a decoded student JWT, as the middleware reads them. -/
structure DecodedStudent where
  studentId : String
  sid : String
deriving DecidableEq, Repr

/-- Claims of a decoded admin JWT, as the middleware reads them. -/
structure DecodedAdmin where
  facultyId : String
  role : Option String
deriving DecidableEq, Repr

/-- Outcome of the student auth middleware: either a rejection with an HTTP
status and error message, or the authenticated student row. -/
inductive StudentAuth where
  | failed (code : Nat) (error : String)
  | ok (student : Student)
deriving DecidableEq, Repr

/-- Embedding of the authenticateStudent middleware.  The host JWT verifier
(jwt.verify, which throws on an invalid or expired token) is the parameter
verify, returning none exactly when verification throws. -/
def authenticateStudent (verify : String → Option DecodedStudent)
    (students : List Student) (req : Request) : StudentAuth :=
  match tokenOf req with
  | none => StudentAuth.failed 401 "Access denied. No token provided."
  | some t =>
    match verify t with
    | none => StudentAuth.failed 401 "Invalid token."
    | some d =>
      match students.find? (fun st => st.id == d.studentId) with
      | none => StudentAuth.failed 401 "Invalid token. Student not found."
      | some st => StudentAuth.ok st

/-- Outcome of the admin auth middleware. -/
inductive AdminAuth where
  | failed (code : Nat) (error : String)
  | ok (faculty : Faculty) (decoded : DecodedAdmin)
deriving DecidableEq, Repr

/-- Embedding of the authenticateAdmin middleware: token extraction, JWT
verification, the admin-role check (403), then the faculty lookup. -/
def authenticateAdmin (verify : String → Option DecodedAdmin)
    (faculties : List Faculty) (req : Request) : AdminAuth :=
  match tokenOf req with
  | none => AdminAuth.failed 401 "Access denied. No token provided."
  | some t =>
    match verify t with
    | none => AdminAuth.failed 401 "Invalid token."
    | some d =>
      if d.role ≠ some "admin" then
        AdminAuth.failed 403 "Access denied. Admin privileges required."
      else
        match faculties.find? (fun f => f.id == d.facultyId) with
        | none => AdminAuth.failed 401 "Invalid token. Faculty not found."
        | some f => AdminAuth.ok f d

/-- One event written on an SSE connection: either a named data push
carrying a payload, or a named error event.  The independent 30-second
heartbeat comment lines carry no data and are not part of this trace. -/
inductive StreamEvent (α : Type) where
  | push (name : String) (payload : α)
  | errorMsg (m : String)
deriving DecidableEq, Repr

/-- Result of opening a stream endpoint: an HTTP rejection before any event,
or a streaming connection with the ordered list of written events. -/
inductive StreamResult (α : Type) where
  | rejected (code : Nat) (error : String)
  | streaming (events : List (StreamEvent α))
deriving DecidableEq, Repr

/-- Events the admin pending stream writes at connection open: the tick-0
snapshot on success, or one error event when the initial query fails.  The
per-tick store argument is none exactly when the underlying query fails. -/
def pendingInitialEvents : Option Store → List (StreamEvent PendingPayload)
  | some s => [StreamEvent.push "pending-documents" (fetchPendingDocuments s)]
  | none => [StreamEvent.errorMsg "Failed to fetch initial data"]

/-- Events one poll tick of the admin pending stream writes: the fresh
snapshot on success; on a failed query the catch block only logs, so
nothing is written for that tick. -/
def pendingTickEvents : Option Store → List (StreamEvent PendingPayload)
  | some s => [StreamEvent.push "pending-documents" (fetchPendingDocuments s)]
  | none => []

/-- Embedding of GET /api/admin/pending-documents/stream.  The route is
registered without any auth middleware and the handler never consults the
request's credentials, so every connection streams; init is the store
visible to the initial query, ticks the stores visible to the poll ticks. -/
def pendingDocumentsStream (_req : Request) (init : Option Store)
    (ticks : List (Option Store)) : StreamResult PendingPayload :=
  StreamResult.streaming (pendingInitialEvents init ++ (ticks.map pendingTickEvents).flatten)

/-- Events the academics stream writes at connection open. -/
def academicsInitialEvents (sid : String) : Option Store → List (StreamEvent AcademicsPayload)
  | some s => [StreamEvent.push "academics-update" (fetchStudentAcademics sid s)]
  | none => [StreamEvent.errorMsg "Failed to fetch academic records"]

/-- Events one poll tick of the academics stream writes (nothing on a failed
query: the catch block only logs). -/
def academicsTickEvents (sid : String) : Option Store → List (StreamEvent AcademicsPayload)
  | some s => [StreamEvent.push "academics-update" (fetchStudentAcademics sid s)]
  | none => []

/-- Embedding of GET /api/student/academics/stream/:sid.  The
authenticateStudent middleware runs first; the handler then rejects with
403 when the path sid differs from the authenticated student's sid, before
any header or event is written; otherwise it streams the tick-0 snapshot
followed by the poll-tick events. -/
def academicsStream (verify : String → Option DecodedStudent) (students : List Student)
    (req : Request) (sidParam : String) (init : Option Store)
    (ticks : List (Option Store)) : StreamResult AcademicsPayload :=
  match authenticateStudent verify students req with
  | StudentAuth.failed code err => StreamResult.rejected code err
  | StudentAuth.ok st =>
    if sidParam ≠ st.sid then
      StreamResult.rejected 403 "Access denied. Can only view your own academic records."
    else
      StreamResult.streaming
        (academicsInitialEvents sidParam init ++ (ticks.map (academicsTickEvents sidParam)).flatten)

/-- Events the skills stream writes at connection open. -/
def skillsInitialEvents (sid : String) : Option Store → List (StreamEvent DocsPayload)
  | some s => [StreamEvent.push "skills-update" (fetchStudentSkills sid s)]
  | none => [StreamEvent.errorMsg "Failed to fetch skills documents"]

/-- Events one poll tick of the skills stream writes (nothing on a failed
query: the catch block only logs). -/
def skillsTickEvents (sid : String) : Option Store → List (StreamEvent DocsPayload)
  | some s => [StreamEvent.push "skills-update" (fetchStudentSkills sid s)]
  | none => []

/-- Embedding of GET /api/student/skills/stream: the middleware runs, then
the stream is scoped to the authenticated student's own sid. -/
def skillsStream (verify : String → Option DecodedStudent) (students : List Student)
    (req : Request) (init : Option Store)
    (ticks : List (Option Store)) : StreamResult DocsPayload :=
  match authenticateStudent verify students req with
  | StudentAuth.failed code err => StreamResult.rejected code err
  | StudentAuth.ok st =>
    StreamResult.streaming
      (skillsInitialEvents st.sid init ++ (ticks.map (skillsTickEvents st.sid)).flatten)

/-- The submission collections a review action can resolve to. -/
inductive Collection where
  | activities
  | extracurriculam
  | interned
  | company
  | skills
deriving DecidableEq, Repr

/-- Reads one submission collection of the store. -/
def Store.coll (s : Store) : Collection → List SubDoc
  | Collection.activities => s.activities
  | Collection.extracurriculam => s.extracurriculam
  | Collection.interned => s.interned
  | Collection.company => s.company
  | Collection.skills => s.skills

/-- Replaces one submission collection of the store. -/
def Store.setColl (s : Store) : Collection → List SubDoc → Store
  | Collection.activities, l => { s with activities := l }
  | Collection.extracurriculam, l => { s with extracurriculam := l }
  | Collection.interned, l => { s with interned := l }
  | Collection.company, l => { s with company := l }
  | Collection.skills, l => { s with skills := l }

/-- Embedding of the modelByType alias table shared by the accept and
reject handlers. -/
def modelByType (ty : String) : Option Collection :=
  if ty == "skill" || ty == "skills" then some Collection.skills
  else if ty == "curricular" || ty == "curriculam" || ty == "curriculum"
      || ty == "activities" then some Collection.activities
  else if ty == "intern" || ty == "inters" || ty == "interned"
      || ty == "internship" then some Collection.interned
  else if ty == "placed" || ty == "company" || ty == "placement" then some Collection.company
  else none

/-- Embedding of resolveModel: the alias table first, then a
case-insensitive lookup in the mongoose model registry.  The registry is a
parameter (the model files are external to these sources); entries whose
schemas lack the sid/status/url fields are rejected by the handlers'
schema-path guards before any update, so only the reviewable collections
appear here. -/
def resolveModel (modelNames : List (String × Collection)) (ty : String) : Option Collection :=
  match modelByType ty with
  | some c => some c
  | none => (modelNames.find? (fun p => jsToLower p.1 == ty)).map (fun p => p.2)

/-- Adds the leading slash the handlers force onto a truthy normalized
docurl. -/
def ensureLeadingSlash (docurl : String) : String :=
  if docurl ≠ "" ∧ startsWithSlash docurl = false then "/" ++ docurl else docurl

/-- Mongo filter used by both review handlers: owner sid equality and url
equality against the normalized document location. -/
def matchFilter (sid docurl : String) (d : SubDoc) : Bool :=
  d.sid == sid && d.url == some docurl

/-- Embedding of Mongo findOneAndUpdate with new:true on a collection held
as a list: the first matching document is replaced by its update and
returned; every other document is untouched; none when nothing matches. -/
def findOneAndUpdateDoc (f : SubDoc → Bool) (u : SubDoc → SubDoc) :
    List SubDoc → Option (SubDoc × List SubDoc)
  | [] => none
  | d :: ds =>
    if f d then some (u d, u d :: ds)
    else (findOneAndUpdateDoc f u ds).map (fun r => (r.1, d :: r.2))

/-- Body of a review request, after the handlers' alias coalescing of the
docurl and documentype field names. -/
structure ReviewBody where
  sid : Option String
  docurl : Option String
  documentype : Option String
  description : Option String
deriving DecidableEq, Repr

/-- Response of a review handler. -/
inductive ReviewOutcome where
  | accepted (message : String)
  | rejectedDoc (message : String) (description : Option String)
  | badRequest (error : String)
  | notFound (error : String)
deriving DecidableEq, Repr

/-- Embedding of POST /api/skills/accept.  The WHATWG-URL-plus-decode
normalisation normalizeDocUrl is the host-library parameter normalize
(applied to the truthy raw docurl).  The handler validates the fields,
resolves the collection, and updates the first document matching
(sid, normalized docurl) to accepted with its description unset. -/
def acceptDocument (normalize : String → String) (modelNames : List (String × Collection))
    (s : Store) (b : ReviewBody) : ReviewOutcome × Store :=
  if !(jsTruthy b.sid) || !(jsTruthy b.docurl) || !(jsTruthy b.documentype) then
    (ReviewOutcome.badRequest "Missing required fields: sid, docurl, documentype", s)
  else
    let docurl := ensureLeadingSlash (normalize (b.docurl.getD ""))
    let ty := jsToLower (jsTrim (b.documentype.getD ""))
    match resolveModel modelNames ty with
    | none => (ReviewOutcome.badRequest "Invalid documentype (unknown model)", s)
    | some c =>
      match findOneAndUpdateDoc (matchFilter (b.sid.getD "") docurl)
          (fun d => { d with status := Status.accepted, description := none }) (s.coll c) with
      | none => (ReviewOutcome.notFound "Document not found for given sid and docurl", s)
      | some r => (ReviewOutcome.accepted "successfully accepted", s.setColl c r.2)

/-- Embedding of POST /api/skills/reject.  The description is validated only
by JavaScript truthiness (missing or empty string fails, any other string
passes); the first matching document's status becomes rejected and the
provided description is stored; the response echoes the updated document's
description. -/
def rejectDocument (normalize : String → String) (modelNames : List (String × Collection))
    (s : Store) (b : ReviewBody) : ReviewOutcome × Store :=
  if !(jsTruthy b.sid) || !(jsTruthy b.docurl) || !(jsTruthy b.documentype)
      || !(jsTruthy b.description) then
    (ReviewOutcome.badRequest
      "Missing required fields: sid, url (or docurl), documentType, description", s)
  else
    let docurl := ensureLeadingSlash (normalize (b.docurl.getD ""))
    let ty := jsToLower (jsTrim (b.documentype.getD ""))
    match resolveModel modelNames ty with
    | none => (ReviewOutcome.badRequest "Invalid documentType (unknown model)", s)
    | some c =>
      match findOneAndUpdateDoc (matchFilter (b.sid.getD "") docurl)
          (fun d =>
            { d with status := Status.rejected, description := some (b.description.getD "") })
          (s.coll c) with
      | none => (ReviewOutcome.notFound "Document not found for given sid and url", s)
      | some r => (ReviewOutcome.rejectedDoc "successfully rejected" r.1.description,
          s.setColl c r.2)

/-- Local view state of the skills SSE hook (useSkillsSSE). -/
structure SkillsHookState where
  skills : List SubDoc
  loading : Bool
  error : Option String
  isConnected : Bool
deriving DecidableEq, Repr

/-- Embedding of the hook's addEventListener error handler: mark not
connected, surface a transient error, close the EventSource (the returned
flag records that close was called). -/
def skillsSSE_errorListener (st : SkillsHookState) : SkillsHookState × Bool :=
  ({ st with isConnected := false, error := some "Connection lost. Retrying..." }, true)

/-- Embedding of the hook's onerror handler: mark not connected, surface a
transient error, close the EventSource. -/
def skillsSSE_onerror (st : SkillsHookState) : SkillsHookState × Bool :=
  ({ st with isConnected := false, error := some "Failed to connect to real-time updates" }, true)

/-- Connection state the admin requests page exposes (it has no error
field; a transport error only flips these two flags). -/
structure RequestsPageConnState where
  loading : Bool
  isLiveConnected : Bool
deriving DecidableEq, Repr

/-- Immediate effects of the admin requests page onerror handler on the
EventSource: whether close() was called, and whether an in-process
reconnect timer (connectSSE after 5 seconds when the source reports
closed) was scheduled. -/
structure RequestsErrorEffects where
  closeCalled : Bool
  retryScheduled : Bool
deriving DecidableEq, Repr

/-- Embedding of the admin requests page eventSource.onerror handler: it
clears the live flag and the loading flag, does not close the EventSource,
and schedules an in-process reconnect attempt. -/
def requestsPage_onError (_st : RequestsPageConnState) :
    RequestsPageConnState × RequestsErrorEffects :=
  ({ loading := false, isLiveConnected := false },
   { closeCalled := false, retryScheduled := true })

/-- Embedding of the admin requests page reject guard in handleRequestAction:
the action proceeds only when the prompt was not cancelled and the entered
reason is not whitespace-only. -/
def clientRejectProceeds (reason : Option String) : Bool :=
  match reason with
  | none => false
  | some r => jsTrim r ≠ ""

/-- Length is preserved by the snapshot sort on typed pending documents. -/
theorem length_sortOut (l : List OutDoc) :
    (List.insertionSort createdDescOut l).length = l.length :=
  (List.perm_insertionSort createdDescOut l).length_eq

/-- Length is preserved by the snapshot sort on submission documents. -/
theorem length_sortSub (l : List SubDoc) :
    (List.insertionSort createdDescSub l).length = l.length :=
  (List.perm_insertionSort createdDescSub l).length_eq

/-- Length is preserved by the academics semester sort. -/
theorem length_sortSem (l : List GPARecord) :
    (List.insertionSort semAsc l).length = l.length :=
  (List.perm_insertionSort semAsc l).length_eq

/-- Modelled from the spec: a snapshot's records are newest-submission-first
by creation time. -/
def newestFirstGPA (l : List GPARecord) : Prop :=
  l.Pairwise (fun a b => b.createdAt ≤ a.createdAt)

/-- C10: in every snapshot payload the reported total count equals the
length of the accompanying documents/records list, and in every admin
pending snapshot the four per-variant breakdown counts sum to the total
count. -/
theorem snapshot_count_invariants (s : Store) (sid : String) :
    (fetchPendingDocuments s).totalCount = (fetchPendingDocuments s).documents.length
  ∧ (fetchPendingDocuments s).breakdown.curriculam
      + (fetchPendingDocuments s).breakdown.internships
      + (fetchPendingDocuments s).breakdown.placements
      + (fetchPendingDocuments s).breakdown.skills
      = (fetchPendingDocuments s).totalCount
  ∧ (fetchStudentSkills sid s).totalCount = (fetchStudentSkills sid s).documents.length
  ∧ (fetchStudentCurricular sid s).totalCount = (fetchStudentCurricular sid s).documents.length
  ∧ (fetchStudentAcademics sid s).count = (fetchStudentAcademics sid s).records.length := by
  refine ⟨rfl, ?_, rfl, rfl, rfl⟩
  simp [fetchPendingDocuments, length_sortOut]
  omega

/-- C5 counterexample: an academics snapshot is not ordered
newest-submission-first by creation time.  In this store the semester-1
record was created at time 5 and the semester-2 record at time 10; the
snapshot sorts by semester ascending, so the older record comes first. -/
def c5Store : Store :=
  { students := [], faculties := []
    gpas := [⟨"S1", 9, none, 2, 10⟩, ⟨"S1", 8, none, 1, 5⟩]
    activities := [], extracurriculam := [], interned := [], company := [], skills := [] }

/-- C5 is false as stated: the academics snapshot produced by the Change
Notifier is ordered by semester ascending, not newest-submission-first by
creation time. -/
theorem academics_snapshot_not_newest_first :
    ¬ newestFirstGPA (fetchStudentAcademics "S1" c5Store).records := by
  unfold newestFirstGPA
  decide

/-- C5 as amended: the skills, curricular and admin pending snapshots are
ordered newest-submission-first by creation time and carry a total count
equal to the number of matching submissions; the academics snapshot also
carries a count equal to the number of matching records but is ordered by
semester ascending. -/
theorem snapshot_order_and_count (sid : String) (s : Store) :
    (fetchStudentSkills sid s).documents.Sorted createdDescSub
  ∧ (fetchStudentSkills sid s).totalCount = (s.skills.filter (fun d => d.sid == sid)).length
  ∧ (fetchStudentCurricular sid s).documents.Sorted createdDescSub
  ∧ (fetchStudentCurricular sid s).totalCount
      = (s.activities.filter (fun d => d.sid == sid)).length
  ∧ (fetchPendingDocuments s).documents.Sorted createdDescOut
  ∧ (fetchPendingDocuments s).totalCount
      = (s.activities.filter (fun d => d.status == Status.pending)).length
      + (s.interned.filter (fun d => d.status == Status.pending)).length
      + (s.company.filter (fun d => d.status == Status.pending)).length
      + (s.skills.filter (fun d => d.status == Status.pending)).length
  ∧ (fetchStudentAcademics sid s).records.Sorted semAsc
  ∧ (fetchStudentAcademics sid s).count = (s.gpas.filter (fun r => r.sid == sid)).length := by
  refine ⟨?_, ?_, ?_, ?_, ?_, ?_, ?_, ?_⟩
  · exact List.sorted_insertionSort createdDescSub _
  · simp [fetchStudentSkills, length_sortSub]
  · exact List.sorted_insertionSort createdDescSub _
  · simp [fetchStudentCurricular, length_sortSub]
  · exact List.sorted_insertionSort createdDescOut _
  · simp [fetchPendingDocuments, length_sortOut]
    omega
  · have h : (fetchStudentAcademics sid s).records
        = (List.insertionSort semAsc (s.gpas.filter (fun r => r.sid == sid))).map
            (fun r => { r with url := fullUrl r.url }) := rfl
    rw [h]
    exact (List.sorted_insertionSort semAsc _).map _ (fun a b hab => hab)
  · simp [fetchStudentAcademics, length_sortSem]

/-- C7 counterexample: on a poll tick whose store query fails, the handler's
catch block only logs — nothing at all is written to the subscriber for
that tick, so in particular no error is reported to it. -/
theorem failed_tick_reports_nothing :
    pendingTickEvents none = [] ∧ skillsTickEvents "S1" none = [] :=
  ⟨rfl, rfl⟩

/-- C7 as amended: a poll tick whose store query fails contributes no event
to the subscriber (the error is only logged server-side); the subscription
is not terminated and every later scheduled tick still fires and writes
its events. -/
theorem failed_tick_skipped_session_continues (req : Request) (init : Option Store)
    (pre post : List (Option Store)) (sid : String) :
    pendingDocumentsStream req init (pre ++ none :: post)
      = StreamResult.streaming (pendingInitialEvents init
          ++ ((pre.map pendingTickEvents).flatten ++ (post.map pendingTickEvents).flatten))
  ∧ ((pre ++ none :: post).map (skillsTickEvents sid)).flatten
      = (pre.map (skillsTickEvents sid)).flatten ++ (post.map (skillsTickEvents sid)).flatten := by
  constructor
  · simp [pendingDocumentsStream, pendingTickEvents]
  · simp [skillsTickEvents]

/-- A connection request carrying no credential at all: no Authorization
header and no token query parameter. -/
def noCredReq : Request := ⟨none, none⟩

/-- A pending skill submission used by the concrete witnesses. -/
def demoSkillDoc : SubDoc :=
  { sid := "S1", url := some "/uploads/a.pdf", status := Status.pending,
    description := none, createdAt := 3, skillname := "Python" }

/-- A store holding one pending skill submission. -/
def oneSkillStore : Store :=
  { students := [], faculties := [], gpas := [], activities := []
    extracurriculam := [], interned := [], company := []
    skills := [demoSkillDoc] }

/-- C1: the admin pending-queue stream route is registered without the
authenticateAdmin middleware, so a connection with no credential is never
rejected — it receives the full pending snapshot immediately.  The
middleware itself (had it been attached) would reject exactly as the claim
says, which the first conjunct records. -/
theorem admin_stream_open_without_credential (verify : String → Option DecodedAdmin)
    (faculties : List Faculty) (init : Option Store) (ticks : List (Option Store)) :
    authenticateAdmin verify faculties noCredReq
      = AdminAuth.failed 401 "Access denied. No token provided."
  ∧ pendingDocumentsStream noCredReq init ticks
      = StreamResult.streaming
          (pendingInitialEvents init ++ (ticks.map pendingTickEvents).flatten)
  ∧ pendingDocumentsStream noCredReq (some oneSkillStore) []
      = StreamResult.streaming
          [StreamEvent.push "pending-documents" (fetchPendingDocuments oneSkillStore)] :=
  ⟨rfl, rfl, rfl⟩

/-- A store whose only submission is one pending extracurricular document. -/
def oneExtraStore : Store :=
  { students := [], faculties := [], gpas := [], activities := []
    extracurriculam := [{ sid := "S1", url := some "/uploads/e.pdf", status := Status.pending,
                          description := some "club", createdAt := 7, activities := "Dance" }]
    interned := [], company := [], skills := [] }

/-- C2: the admin pending snapshot misses pending extracurricular
submissions.  With exactly one pending extracurricular submission in the
store, the snapshot is empty with total count 0 and a breakdown of four
zero counts, while the spec's five-variant pending count is 1. -/
theorem pending_snapshot_misses_extracurricular :
    (fetchPendingDocuments oneExtraStore).totalCount = 0
  ∧ (fetchPendingDocuments oneExtraStore).documents = []
  ∧ (fetchPendingDocuments oneExtraStore).breakdown = ⟨0, 0, 0, 0⟩
  ∧ specPendingCountAllVariants oneExtraStore = 1 := by
  refine ⟨rfl, rfl, rfl, ?_⟩
  decide

/-- C6: for every successfully opened session (the initial query sees a
store), the server computes and pushes exactly one snapshot at connection
open, and this push is the head of the event trace — it precedes every
timer-driven poll-tick event.  Shown for the admin pending stream and,
under its auth and scope hypotheses, for the student academics stream. -/
theorem tick0_snapshot_precedes_polls (req : Request) (s0 : Store)
    (ticks : List (Option Store)) (verify : String → Option DecodedStudent)
    (students : List Student) (sidParam : String) (st : Student) :
    pendingDocumentsStream req (some s0) ticks
      = StreamResult.streaming
          (StreamEvent.push "pending-documents" (fetchPendingDocuments s0)
            :: (ticks.map pendingTickEvents).flatten)
  ∧ (authenticateStudent verify students req = StudentAuth.ok st → sidParam = st.sid →
      academicsStream verify students req sidParam (some s0) ticks
        = StreamResult.streaming
            (StreamEvent.push "academics-update" (fetchStudentAcademics sidParam s0)
              :: (ticks.map (academicsTickEvents sidParam)).flatten)) := by
  constructor
  · rfl
  · intro hauth hsid
    simp [academicsStream, hauth, hsid, academicsInitialEvents]

/-- A verifier and student table for the concrete stream witnesses: the
token tokA belongs to the student row with sid S1. -/
def demoVerify : String → Option DecodedStudent :=
  fun t => if t == "tokA" then some ⟨"id1", "S1"⟩ else none

/-- Student table matching demoVerify. -/
def demoStudents : List Student := [⟨"id1", "S1"⟩]

/-- Request authenticated as student S1 via the Authorization header. -/
def demoReq : Request := ⟨some "Bearer tokA", none⟩

/-- Witness for the tick-0 theorem at a concrete authenticated session. -/
theorem tick0_snapshot_precedes_polls_witness :
    pendingDocumentsStream demoReq (some oneSkillStore) []
      = StreamResult.streaming
          [StreamEvent.push "pending-documents" (fetchPendingDocuments oneSkillStore)]
  ∧ academicsStream demoVerify demoStudents demoReq "S1" (some oneSkillStore) []
      = StreamResult.streaming
          [StreamEvent.push "academics-update" (fetchStudentAcademics "S1" oneSkillStore)] := by
  have h := tick0_snapshot_precedes_polls demoReq oneSkillStore [] demoVerify demoStudents
    "S1" ⟨"id1", "S1"⟩
  exact ⟨h.1, h.2 (by decide) rfl⟩

/-- C8: a student-scoped academics stream request authenticated as one
student but targeting a different student's sid is rejected with the 403
access-denied signal; a rejection carries no events, so no snapshot is
sent. -/
theorem cross_student_stream_rejected (verify : String → Option DecodedStudent)
    (students : List Student) (req : Request) (sidParam : String) (st : Student)
    (init : Option Store) (ticks : List (Option Store))
    (hauth : authenticateStudent verify students req = StudentAuth.ok st)
    (hne : sidParam ≠ st.sid) :
    academicsStream verify students req sidParam init ticks
      = StreamResult.rejected 403 "Access denied. Can only view your own academic records." := by
  simp [academicsStream, hauth, hne]

/-- Witness: the session authenticated as student S1 asking for student
S2's academics stream is rejected with 403 before any event. -/
theorem cross_student_stream_rejected_witness :
    academicsStream demoVerify demoStudents demoReq "S2" (some oneSkillStore) []
      = StreamResult.rejected 403 "Access denied. Can only view your own academic records." :=
  cross_student_stream_rejected demoVerify demoStudents demoReq "S2" ⟨"id1", "S1"⟩
    (some oneSkillStore) [] (by decide) (by decide)

/-- When nothing in the collection matches, findOneAndUpdate returns none. -/
theorem findOneAndUpdateDoc_eq_none (f : SubDoc → Bool) (u : SubDoc → SubDoc) :
    ∀ l : List SubDoc, (∀ x ∈ l, f x = false) → findOneAndUpdateDoc f u l = none := by
  intro l
  induction l with
  | nil => intro _; rfl
  | cons d ds ih =>
    intro h
    have hd := h d (List.mem_cons_self d ds)
    simp [findOneAndUpdateDoc, hd]
    exact ih (fun x hx => h x (List.mem_cons_of_mem d hx))

/-- When the collection splits as a no-match front part, a first matching
document and a tail, findOneAndUpdate updates exactly that document and
leaves everything else in place. -/
theorem findOneAndUpdateDoc_decomp (f : SubDoc → Bool) (u : SubDoc → SubDoc)
    (d : SubDoc) (l₂ : List SubDoc) :
    ∀ l₁ : List SubDoc, (∀ x ∈ l₁, f x = false) → f d = true →
      findOneAndUpdateDoc f u (l₁ ++ d :: l₂) = some (u d, l₁ ++ u d :: l₂) := by
  intro l₁
  induction l₁ with
  | nil =>
    intro _ hd
    simp [findOneAndUpdateDoc, hd]
  | cons x xs ih =>
    intro h hd
    have hx := h x (List.mem_cons_self x xs)
    have := ih (fun y hy => h y (List.mem_cons_of_mem x hy)) hd
    simp [findOneAndUpdateDoc, hx, this]

/-- A collection other than the one replaced by setColl is unchanged. -/
theorem coll_setColl_ne (s : Store) (c c2 : Collection) (l : List SubDoc)
    (h : c2 ≠ c) : (s.setColl c l).coll c2 = s.coll c2 := by
  cases c <;> cases c2 <;> first | rfl | exact absurd rfl h

/-- The document filter a review handler computes from its request body:
owner sid and the normalized, slash-anchored document location. -/
def reviewFilter (normalize : String → String) (b : ReviewBody) : SubDoc → Bool :=
  matchFilter (b.sid.getD "") (ensureLeadingSlash (normalize (b.docurl.getD "")))

/-- C3: for a review request whose fields are present and whose variant tag
resolves to a collection: when no stored document matches (owner sid,
normalized location), both actions respond not-found and change nothing;
when the collection splits around a first matching document, accept marks
exactly that document accepted and removes its description, reject marks
exactly it rejected and stores the provided description, the surrounding
documents and every other collection are untouched. -/
theorem review_action_updates_one_document (normalize : String → String)
    (modelNames : List (String × Collection)) (s : Store) (b : ReviewBody) (c : Collection)
    (hsid : jsTruthy b.sid = true) (hurl : jsTruthy b.docurl = true)
    (hty : jsTruthy b.documentype = true) (hdesc : jsTruthy b.description = true)
    (hres : resolveModel modelNames (jsToLower (jsTrim (b.documentype.getD ""))) = some c) :
    ((∀ x ∈ s.coll c, reviewFilter normalize b x = false) →
        acceptDocument normalize modelNames s b
          = (ReviewOutcome.notFound "Document not found for given sid and docurl", s)
      ∧ rejectDocument normalize modelNames s b
          = (ReviewOutcome.notFound "Document not found for given sid and url", s))
  ∧ (∀ l₁ d l₂, s.coll c = l₁ ++ d :: l₂ →
      (∀ x ∈ l₁, reviewFilter normalize b x = false) →
      reviewFilter normalize b d = true →
        acceptDocument normalize modelNames s b
          = (ReviewOutcome.accepted "successfully accepted",
             s.setColl c (l₁ ++ { d with status := Status.accepted, description := none } :: l₂))
      ∧ rejectDocument normalize modelNames s b
          = (ReviewOutcome.rejectedDoc "successfully rejected" (some (b.description.getD "")),
             s.setColl c
               (l₁ ++ { d with status := Status.rejected, description := some (b.description.getD "") } :: l₂))
      ∧ ∀ c2 l, c2 ≠ c → (s.setColl c l).coll c2 = s.coll c2) := by
  constructor
  · intro hnone
    have hfind := findOneAndUpdateDoc_eq_none
      (matchFilter (b.sid.getD "") (ensureLeadingSlash (normalize (b.docurl.getD ""))))
      (fun d => { d with status := Status.accepted, description := none }) (s.coll c) hnone
    have hfind2 := findOneAndUpdateDoc_eq_none
      (matchFilter (b.sid.getD "") (ensureLeadingSlash (normalize (b.docurl.getD ""))))
      (fun d =>
        { d with status := Status.rejected, description := some (b.description.getD "") })
      (s.coll c) hnone
    constructor
    · simp [acceptDocument, hsid, hurl, hty, hres, hfind]
    · simp [rejectDocument, hsid, hurl, hty, hdesc, hres, hfind2]
  · intro l₁ d l₂ hsplit hfront hd
    have hfind := findOneAndUpdateDoc_decomp
      (matchFilter (b.sid.getD "") (ensureLeadingSlash (normalize (b.docurl.getD ""))))
      (fun d => { d with status := Status.accepted, description := none }) d l₂ l₁ hfront hd
    have hfind2 := findOneAndUpdateDoc_decomp
      (matchFilter (b.sid.getD "") (ensureLeadingSlash (normalize (b.docurl.getD ""))))
      (fun d =>
        { d with status := Status.rejected, description := some (b.description.getD "") })
      d l₂ l₁ hfront hd
    refine ⟨?_, ?_, fun c2 l h => coll_setColl_ne s c c2 l h⟩
    · simp [acceptDocument, hsid, hurl, hty, hres, hsplit, hfind]
    · simp [rejectDocument, hsid, hurl, hty, hdesc, hres, hsplit, hfind2]

/-- A review request body targeting the demo skill document, carrying a
proper rejection description. -/
def demoReviewBody : ReviewBody :=
  ⟨some "S1", some "/uploads/a.pdf", some "skill", some "bad scan"⟩

/-- Witness for the review-action theorem at the demo store: accepting
marks the single matching skill document accepted, rejecting marks it
rejected with the given description stored. -/
theorem review_action_updates_one_document_witness :
    acceptDocument id [] oneSkillStore demoReviewBody
      = (ReviewOutcome.accepted "successfully accepted",
         oneSkillStore.setColl Collection.skills
           ([] ++ { demoSkillDoc with status := Status.accepted, description := none } :: []))
  ∧ rejectDocument id [] oneSkillStore demoReviewBody
      = (ReviewOutcome.rejectedDoc "successfully rejected" (some "bad scan"),
         oneSkillStore.setColl Collection.skills
           ([] ++ { demoSkillDoc with status := Status.rejected, description := some "bad scan" } :: [])) := by
  have h := review_action_updates_one_document id [] oneSkillStore demoReviewBody
    Collection.skills (by decide) (by decide) (by decide) (by decide) (by decide)
  have h2 := h.2 [] demoSkillDoc [] rfl (by simp) (by decide)
  exact ⟨h2.1, h2.2.1⟩

/-- A reject request whose description is a single space (whitespace-only). -/
def whitespaceRejectBody : ReviewBody :=
  ⟨some "S1", some "/uploads/a.pdf", some "skill", some " "⟩

/-- C4 is false as stated: a reject request whose description is
whitespace-only passes the handler's JavaScript-truthiness check, is not
refused, and mutates the matching stored submission (status rejected,
the whitespace description stored verbatim). -/
theorem whitespace_description_not_refused :
    (rejectDocument id [] oneSkillStore whitespaceRejectBody).1
      = ReviewOutcome.rejectedDoc "successfully rejected" (some " ")
  ∧ (rejectDocument id [] oneSkillStore whitespaceRejectBody).2 ≠ oneSkillStore
  ∧ ((rejectDocument id [] oneSkillStore whitespaceRejectBody).2).skills
      = [{ demoSkillDoc with status := Status.rejected, description := some " " }] := by
  decide

/-- C4 as amended: a reject request whose description is missing or the
empty string is refused with the 400 client-error signal and changes
nothing; the admin page's own guard additionally blocks whitespace-only
descriptions before a request is sent, but the endpoint itself accepts
them. -/
theorem reject_requires_description (normalize : String → String)
    (modelNames : List (String × Collection)) (s : Store) (b : ReviewBody)
    (hdesc : jsTruthy b.description = false) :
    rejectDocument normalize modelNames s b
      = (ReviewOutcome.badRequest
          "Missing required fields: sid, url (or docurl), documentType, description", s)
  ∧ ∀ r : String, jsTrim r = "" → clientRejectProceeds (some r) = false := by
  constructor
  · simp [rejectDocument, hdesc]
  · intro r h
    simp [clientRejectProceeds, h]

/-- Witness for the amended reject-validation theorem: an empty-string
description is refused with no state change, and the admin page guard
blocks a whitespace-only reason. -/
theorem reject_requires_description_witness :
    rejectDocument id [] oneSkillStore ⟨some "S1", some "/uploads/a.pdf", some "skill", some ""⟩
      = (ReviewOutcome.badRequest
          "Missing required fields: sid, url (or docurl), documentType, description", oneSkillStore)
  ∧ clientRejectProceeds (some " ") = false := by
  have h := reject_requires_description id [] oneSkillStore
    ⟨some "S1", some "/uploads/a.pdf", some "skill", some ""⟩ (by decide)
  exact ⟨h.1, h.2 " " (by decide)⟩

/-- C9 is false as stated for the admin requests page: its onerror handler
does not close the EventSource (closeCalled is false) and schedules an
in-process reconnect attempt (retryScheduled is true); it also surfaces no
error value, its state having no error field at all. -/
theorem admin_reconnector_keeps_retrying :
    (requestsPage_onError ⟨true, true⟩).2.closeCalled = false
  ∧ (requestsPage_onError ⟨true, true⟩).2.retryScheduled = true
  ∧ (requestsPage_onError ⟨true, true⟩).1 = ⟨false, false⟩ :=
  ⟨rfl, rfl, rfl⟩

/-- C9 as amended: the skills SSE hook's transport-error handlers mark the
connection not-live, surface a transient error and close the connection
without scheduling a retry, while the admin requests page handler marks
the connection not-live and clears loading but surfaces no error, leaves
the EventSource open and schedules an in-process reconnect attempt. -/
theorem reconnector_error_behaviour (st : SkillsHookState) (st2 : RequestsPageConnState) :
    skillsSSE_onerror st
      = ({ st with isConnected := false, error := some "Failed to connect to real-time updates" }, true)
  ∧ skillsSSE_errorListener st
      = ({ st with isConnected := false, error := some "Connection lost. Retrying..." }, true)
  ∧ requestsPage_onError st2 = (⟨false, false⟩, ⟨false, true⟩) :=
  ⟨rfl, rfl, rfl⟩

end StudentHub
